import Mathlib

/-!
Shallow embedding of the bilibili-summarizer pipeline (`main.py`) and proofs of
its specification claims.

The external collaborators (video service, subtitle HTTP fetch, audio download,
transcription, LLM completion) are modelled as oracles supplied to the embedded
functions; the filesystem is modelled as a map from paths to contents together
with a set of created directories and an append-only write log.
-/

namespace BiliSpec

/-- `os.path.join(dir, name)` for the paths used by the program. -/
def pathJoin (dir name : String) : String :=
  dir ++ "/" ++ name

/-- Python `f"{n:03d}"` for a natural number: decimal digits, zero-padded to width 3. -/
def formatP03 (n : Nat) : String :=
  let s := toString n
  String.mk (List.replicate (3 - s.length) '0') ++ s

/-- The sanitization in `save` (main.py line 50):
`"".join(c for c in filename if c.isalnum() or c in (' ', '.', '_', '-')).rstrip()`.
`isalnum` is Python's Unicode-aware `str.isalnum`, kept abstract as a parameter. -/
def save_safeFilename (isalnum : Char → Bool) (filename : String) : String :=
  String.mk (((filename.data.filter fun c =>
    isalnum c || c = ' ' || c = '.' || c = '_' || c = '-').reverse.dropWhile
      Char.isWhitespace).reverse)

/-- Filesystem model: file contents by path, created directories, and an
append-only log of paths written (in order). -/
structure Fs where
  files : String → Option String
  dirs : List String
  writes : List String

/-- `save(page_number, filename, content, output_dir)` (main.py lines 47-60):
sanitizes the filename, ensures the output directory exists, and writes
`content` to `{output_dir}/P{page_number:03d}_{safe_filename}.md`,
overwriting any existing file there.  Returns the path and the new filesystem. -/
def save (isalnum : Char → Bool) (page_number : Nat) (filename content output_dir : String)
    (fs : Fs) : String × Fs :=
  let safe_filename := save_safeFilename isalnum filename
  let dirs := if output_dir ∈ fs.dirs then fs.dirs else output_dir :: fs.dirs
  let file_path := pathJoin output_dir ("P" ++ formatP03 page_number ++ "_" ++ safe_filename ++ ".md")
  (file_path,
   ⟨fun p => if p = file_path then some content else fs.files p,
    dirs,
    fs.writes ++ [file_path]⟩)

/-- `CACHE_DIR` (main.py line 13). -/
def CACHE_DIR : String := ".cache/subtitles"

/-- `CACHE_MAX_AGE_DAYS` (main.py line 14). -/
def CACHE_MAX_AGE_DAYS : Nat := 30

/-- Python `str.strip()`: drop leading and trailing whitespace. -/
def pyStrip (s : String) : String :=
  String.mk (((s.data.dropWhile Char.isWhitespace).reverse.dropWhile
    Char.isWhitespace).reverse)

/-- Python truthiness of `subtitle_text and subtitle_text.strip()` for an
optional string (main.py line 96): `None` and `""` are falsy, and the stripped
string must also be non-empty. -/
def pyTruthyTrim : Option String → Bool
  | none => false
  | some s => decide (s ≠ "") && decide (pyStrip s ≠ "")

/-- Which source the cache-miss path of `get_subtitle` draws from:
official subtitles (the fetched JSON body's `content` fields, main.py lines 81-88)
or Whisper generation from downloaded audio (lines 89-93). -/
inductive SubtitleSource where
  | official (body : List String)
  | generated (text : String)

/-- The text `get_subtitle` computes on a cache miss, before the cache write. -/
def subtitleSourceText : SubtitleSource → String
  | SubtitleSource.official body => String.intercalate "\n" body
  | SubtitleSource.generated text => text

/-- Result of one `get_subtitle` call: the returned text, the cache contents
afterwards, the collaborator calls made (in order), and whether a cache entry
was written. -/
structure ResolveResult where
  subtitle_text : Option String
  cache : String → Option String
  calls : List String
  cacheWritten : Bool

/-- `get_subtitle(v, page_number, device, model_size, bvid)` (main.py lines 62-101).
The cache is the map of cache-file paths to contents; `source` is the oracle
for the non-cached resolution path. -/
def get_subtitle (bvid : String) (page_number : Nat) (cache : String → Option String)
    (source : SubtitleSource) : ResolveResult :=
  let cache_key := bvid ++ "_" ++ toString page_number
  let cache_file_path := pathJoin CACHE_DIR (cache_key ++ ".txt")
  match cache cache_file_path with
  | some content => ⟨some content, cache, [], false⟩
  | none =>
    match source with
    | SubtitleSource.official body =>
      let subtitle_text : Option String := some (String.intercalate "\n" body)
      let calls := ["get_cid", "get_subtitle_meta", "http_get"]
      if pyTruthyTrim subtitle_text then
        ⟨subtitle_text, fun p => if p = cache_file_path then subtitle_text else cache p,
         calls, true⟩
      else
        ⟨subtitle_text, cache, calls, false⟩
    | SubtitleSource.generated text =>
      let subtitle_text : Option String := some text
      let calls := ["get_cid", "get_subtitle_meta", "download_audio", "transcribe"]
      if pyTruthyTrim subtitle_text then
        ⟨subtitle_text, fun p => if p = cache_file_path then subtitle_text else cache p,
         calls, true⟩
      else
        ⟨subtitle_text, cache, calls, false⟩

/-- Python truthiness of `not subtitle_text or not subtitle_text.strip()`
(main.py line 116): the transcript is absent, empty, or whitespace-only. -/
def pyBlank : Option String → Bool
  | none => true
  | some s => decide (s = "") || decide (pyStrip s = "")

/-- Outcome of one fallible step inside an attempt of `process_page`:
a value, a network-class exception (`aiohttp.ClientError` / `asyncio.TimeoutError`),
or any other exception. -/
inductive StepOutcome (α : Type) where
  | ok (a : α)
  | raiseNet
  | raiseOther
deriving DecidableEq, Repr

/-- Per-attempt oracles for `process_page`: what `get_subtitle` yields on each
attempt, and what `summarize` yields if it is reached on that attempt. -/
structure PageEnv where
  resolve : Nat → StepOutcome (Option String)
  summar : Nat → StepOutcome (Option String)

/-- Observable trace of one `process_page` call: attempts started, the backoff
sleep durations in order, how often the summarizer was invoked, the summary
content saved (if any), and which log events fired. -/
structure PageTrace where
  attemptsMade : Nat
  sleeps : List Nat
  summarizerCalls : Nat
  saved : Option String
  gaveUp : Bool
  emptyWarned : Bool
  unexpectedLogged : Bool
  summaryErrorLogged : Bool
deriving DecidableEq, Repr

/-- The retry loop of `process_page` (main.py lines 111-136), recursing on the
number of loop iterations remaining; `attempt` is the 0-based loop index.
On a network-class error: if `attempt + 1 == max_retries` log the give-up error,
else sleep `5 * (attempt + 1)` and continue.  On any other exception: log and
break.  A blank transcript warns and returns; an absent summary logs an error
and returns; a present summary is saved and the loop returns. -/
def runAttempts (env : PageEnv) (maxRetries : Nat) : Nat → Nat → PageTrace
  | 0, _ => ⟨0, [], 0, none, false, false, false, false⟩
  | remaining + 1, attempt =>
    match env.resolve attempt with
    | StepOutcome.raiseNet =>
      if attempt + 1 = maxRetries then
        ⟨1, [], 0, none, true, false, false, false⟩
      else
        let rest := runAttempts env maxRetries remaining (attempt + 1)
        ⟨rest.attemptsMade + 1, 5 * (attempt + 1) :: rest.sleeps, rest.summarizerCalls,
         rest.saved, rest.gaveUp, rest.emptyWarned, rest.unexpectedLogged,
         rest.summaryErrorLogged⟩
    | StepOutcome.raiseOther =>
      ⟨1, [], 0, none, false, false, true, false⟩
    | StepOutcome.ok subtitle_text =>
      if pyBlank subtitle_text then
        ⟨1, [], 0, none, false, true, false, false⟩
      else
        match env.summar attempt with
        | StepOutcome.raiseNet =>
          if attempt + 1 = maxRetries then
            ⟨1, [], 1, none, true, false, false, false⟩
          else
            let rest := runAttempts env maxRetries remaining (attempt + 1)
            ⟨rest.attemptsMade + 1, 5 * (attempt + 1) :: rest.sleeps,
             rest.summarizerCalls + 1, rest.saved, rest.gaveUp, rest.emptyWarned,
             rest.unexpectedLogged, rest.summaryErrorLogged⟩
        | StepOutcome.raiseOther =>
          ⟨1, [], 1, none, false, false, true, false⟩
        | StepOutcome.ok summary =>
          match summary with
          | some s =>
            if s = "" then ⟨1, [], 1, none, false, false, false, true⟩
            else ⟨1, [], 1, some s, false, false, false, false⟩
          | none => ⟨1, [], 1, none, false, false, false, true⟩

/-- The trace of one `process_page` call: `max_retries = 3` (main.py line 107),
loop over `attempt in range(3)`. -/
def process_page_trace (env : PageEnv) : PageTrace :=
  runAttempts env 3 3 0

/-- A page record from `v.get_pages()`: its platform page number (`'page'`)
and its title (`'part'`). -/
structure Page where
  page : Nat
  part : String
deriving DecidableEq, Repr

/-- `process_page` (main.py lines 103-136) as a filesystem transformer:
runs the retry loop and, on success, performs the `save` call with
`_save_page_number = save_page_number if save_page_number is not None else page_number`. -/
def process_page (isalnum : Char → Bool) (env : PageEnv) (pg : Page)
    (output_dir : String) (save_page_number : Option Nat) (fs : Fs) : PageTrace × Fs :=
  let save_page_num := save_page_number.getD pg.page
  let t := process_page_trace env
  match t.saved with
  | some content => (t, (save isalnum save_page_num pg.part content output_dir fs).2)
  | none => (t, fs)

/-- The checkpoint path computed in `process_bvid` (main.py lines 159-161):
same sanitization expression and `P{page_number:03d}_{safe}.md` format as `save`. -/
def bvid_checkpointPath (isalnum : Char → Bool) (output_dir : String) (page_number : Nat)
    (title : String) : String :=
  let safe_filename := String.mk (((title.data.filter fun c =>
    isalnum c || c = ' ' || c = '.' || c = '_' || c = '-').reverse.dropWhile
      Char.isWhitespace).reverse)
  pathJoin output_dir ("P" ++ formatP03 page_number ++ "_" ++ safe_filename ++ ".md")

/-- The page loop of `process_bvid` (main.py lines 155-168): for each page,
skip when its checkpoint file exists, else run `process_page`.  Returns the
final filesystem and the list of pages actually dispatched to `process_page`. -/
def bvidLoop (isalnum : Char → Bool) (envs : Page → PageEnv) (output_dir : String) :
    List Page → Fs → Fs × List Page
  | [], fs => (fs, [])
  | pg :: rest, fs =>
    if (fs.files (bvid_checkpointPath isalnum output_dir pg.page pg.part)).isSome then
      bvidLoop isalnum envs output_dir rest fs
    else
      ((bvidLoop isalnum envs output_dir rest
          (process_page isalnum (envs pg) pg output_dir none fs).2).1,
       pg :: (bvidLoop isalnum envs output_dir rest
          (process_page isalnum (envs pg) pg output_dir none fs).2).2)

/-- `process_bvid` (main.py lines 138-168): filter pages to
`page >= start_page and (end_page is None or page <= end_page)`, then run the
checkpoint-skip loop. -/
def process_bvid (isalnum : Char → Bool) (envs : Page → PageEnv) (all_pages : List Page)
    (start_page : Nat) (end_page : Option Nat) (output_dir : String) (fs : Fs) :
    Fs × List Page :=
  let pages_to_process := all_pages.filter fun p =>
    decide (start_page ≤ p.page) && (match end_page with
      | none => true
      | some e => decide (p.page ≤ e))
  bvidLoop isalnum envs output_dir pages_to_process fs

/-- The checkpoint path computed in `process_season` (main.py lines 199-201):
keyed by the global counter, not the page's own number. -/
def season_checkpointPath (isalnum : Char → Bool) (output_dir : String) (counter : Nat)
    (title : String) : String :=
  let safe_filename := String.mk (((title.data.filter fun c =>
    isalnum c || c = ' ' || c = '.' || c = '_' || c = '-').reverse.dropWhile
      Char.isWhitespace).reverse)
  pathJoin output_dir ("P" ++ formatP03 counter ++ "_" ++ safe_filename ++ ".md")

/-- The inner page loop of `process_season` (main.py lines 196-210): for each
page, check the checkpoint at the current global counter; in both the skip and
the process branch the counter advances by one.  Returns the final filesystem,
the `(save_number, page)` pairs issued in order, and the final counter. -/
def seasonPagesLoop (isalnum : Char → Bool) (env : Page → PageEnv) (output_dir : String) :
    List Page → Nat → Fs → Fs × List (Nat × Page) × Nat
  | [], counter, fs => (fs, [], counter)
  | pg :: rest, counter, fs =>
    if (fs.files (season_checkpointPath isalnum output_dir counter pg.part)).isSome then
      ((seasonPagesLoop isalnum env output_dir rest (counter + 1) fs).1,
       (counter, pg) :: (seasonPagesLoop isalnum env output_dir rest (counter + 1) fs).2.1,
       (seasonPagesLoop isalnum env output_dir rest (counter + 1) fs).2.2)
    else
      ((seasonPagesLoop isalnum env output_dir rest (counter + 1)
          (process_page isalnum (env pg) pg output_dir (some counter) fs).2).1,
       (counter, pg) :: (seasonPagesLoop isalnum env output_dir rest (counter + 1)
          (process_page isalnum (env pg) pg output_dir (some counter) fs).2).2.1,
       (seasonPagesLoop isalnum env output_dir rest (counter + 1)
          (process_page isalnum (env pg) pg output_dir (some counter) fs).2).2.2)

/-- Result of `v.get_pages()` for one video of the season: either the fetch
raised (main.py lines 188-192) or it returned the page list. -/
inductive VideoFetch where
  | failed
  | fetched (pages : List Page)

/-- The video loop of `process_season` (main.py lines 182-210): a failed page
fetch logs and skips the whole video without advancing the counter; otherwise
the inner page loop runs and threads the counter on. -/
def process_season_loop (isalnum : Char → Bool) (envs : String → Page → PageEnv)
    (output_dir : String) :
    List (String × VideoFetch) → Nat → Fs → Fs × List (Nat × Page) × Nat
  | [], counter, fs => (fs, [], counter)
  | (_, VideoFetch.failed) :: rest, counter, fs =>
    process_season_loop isalnum envs output_dir rest counter fs
  | (bvid, VideoFetch.fetched pages) :: rest, counter, fs =>
    ((process_season_loop isalnum envs output_dir rest
        (seasonPagesLoop isalnum (envs bvid) output_dir pages counter fs).2.2
        (seasonPagesLoop isalnum (envs bvid) output_dir pages counter fs).1).1,
     (seasonPagesLoop isalnum (envs bvid) output_dir pages counter fs).2.1 ++
       (process_season_loop isalnum envs output_dir rest
         (seasonPagesLoop isalnum (envs bvid) output_dir pages counter fs).2.2
         (seasonPagesLoop isalnum (envs bvid) output_dir pages counter fs).1).2.1,
     (process_season_loop isalnum envs output_dir rest
        (seasonPagesLoop isalnum (envs bvid) output_dir pages counter fs).2.2
        (seasonPagesLoop isalnum (envs bvid) output_dir pages counter fs).1).2.2)

/-- `process_season` (main.py lines 170-210): `global_page_counter = 1`, then
the video loop. -/
def process_season (isalnum : Char → Bool) (envs : String → Page → PageEnv)
    (output_dir : String) (videos : List (String × VideoFetch)) (fs : Fs) :
    Fs × List (Nat × Page) × Nat :=
  process_season_loop isalnum envs output_dir videos 1 fs

/-- Total number of pages enumerated by the season loop: pages of successfully
fetched videos only. -/
def seasonPageCount : List (String × VideoFetch) → Nat
  | [] => 0
  | (_, VideoFetch.failed) :: rest => seasonPageCount rest
  | (_, VideoFetch.fetched pages) :: rest => pages.length + seasonPageCount rest

/-- The pages enumerated by the season loop, in video-then-page order. -/
def seasonPagesConcat : List (String × VideoFetch) → List Page
  | [] => []
  | (_, VideoFetch.failed) :: rest => seasonPagesConcat rest
  | (_, VideoFetch.fetched pages) :: rest => pages ++ seasonPagesConcat rest

/-- One directory entry seen by `cleanup_cache`: its name, whether
`os.path.isfile` holds, its modification time, and whether `os.path.getmtime`
and `os.remove` succeed (raising `OSError` otherwise). -/
structure CacheFile where
  name : String
  isFile : Bool
  mtime : Int
  statOk : Bool
  removeOk : Bool
deriving DecidableEq, Repr

/-- The scan loop of `cleanup_cache` (main.py lines 26-34): for each regular
file, stat it and remove it when older than the cutoff; an `OSError` from stat
or remove is logged and the scan continues.  Returns the remaining entries,
the count of removed files, and the count of logged per-file errors. -/
def cleanup_scan (cutoff : Int) : List CacheFile → List CacheFile × Nat × Nat
  | [] => ([], 0, 0)
  | f :: rest =>
    let r := cleanup_scan cutoff rest
    if f.isFile then
      if f.statOk then
        if f.mtime < cutoff then
          if f.removeOk then (r.1, r.2.1 + 1, r.2.2)
          else (f :: r.1, r.2.1, r.2.2 + 1)
        else (f :: r.1, r.2.1, r.2.2)
      else (f :: r.1, r.2.1, r.2.2 + 1)
    else (f :: r.1, r.2.1, r.2.2)

/-- `cleanup_cache(directory, max_age_days)` (main.py lines 17-38): returns
unchanged when the directory does not exist, else scans with cutoff
`now - max_age_days * 24 * 60 * 60`. -/
def cleanup_cache (dirExists : Bool) (now : Int) (max_age_days : Int)
    (entries : List CacheFile) : List CacheFile × Nat × Nat :=
  if dirExists then cleanup_scan (now - max_age_days * 24 * 60 * 60) entries
  else (entries, 0, 0)

/-- Sanitization as the specification words it: keep exactly the alphanumeric
characters, spaces, dots, underscores and hyphens, drop all other characters,
then strip trailing whitespace. -/
def sanitize_per_claim (isalnum : Char → Bool) (title : String) : String :=
  String.mk (((title.data.filter fun c =>
    isalnum c || decide (c ∈ ([' ', '.', '_', '-'] : List Char))).reverse.dropWhile
      Char.isWhitespace).reverse)

/-- The cache-file path computed by `get_subtitle` (main.py lines 64-65). -/
def cacheFilePath (bvid : String) (page_number : Nat) : String :=
  pathJoin CACHE_DIR (bvid ++ "_" ++ toString page_number ++ ".txt")

/-- The collaborator calls `get_subtitle` makes on a cache miss, per source. -/
def missCalls : SubtitleSource → List String
  | SubtitleSource.official _ => ["get_cid", "get_subtitle_meta", "http_get"]
  | SubtitleSource.generated _ => ["get_cid", "get_subtitle_meta", "download_audio", "transcribe"]

/-- In a given filesystem, the single-video loop can no longer do anything to a
page: either its checkpoint file exists or its page-processor run saves nothing. -/
def pageDone (isalnum : Char → Bool) (envs : Page → PageEnv) (output_dir : String)
    (fs : Fs) (pg : Page) : Prop :=
  (fs.files (bvid_checkpointPath isalnum output_dir pg.page pg.part)).isSome = true ∨
  (process_page_trace (envs pg)).saved = none

/-- A directory entry that `cleanup_cache` removes: a regular file whose stat
succeeds, whose mtime is older than the cutoff, and whose removal succeeds. -/
def evictedP (cutoff : Int) (f : CacheFile) : Bool :=
  f.isFile && f.statOk && decide (f.mtime < cutoff) && f.removeOk

/-- A directory entry for which `cleanup_cache` logs a per-file `OSError`:
a regular file whose stat fails, or is stale but cannot be removed. -/
def evictErrP (cutoff : Int) (f : CacheFile) : Bool :=
  f.isFile && (!f.statOk || (f.statOk && decide (f.mtime < cutoff) && !f.removeOk))

/-- Oracle on which every attempt raises a network-class error. -/
def envAllNet : PageEnv :=
  ⟨fun _ => StepOutcome.raiseNet, fun _ => StepOutcome.ok none⟩

/-- Oracle on which attempts 1 and 2 raise a network-class error while the
resolver then succeeds, mirroring the spec's retry/backoff test. -/
def envTwoNetThenOk : PageEnv :=
  ⟨fun a => if a < 2 then StepOutcome.raiseNet else StepOutcome.ok (some "text"),
   fun _ => StepOutcome.ok (some "summary")⟩

/-- Oracle whose first attempt raises a non-network exception. -/
def envOtherFirst : PageEnv :=
  ⟨fun _ => StepOutcome.raiseOther, fun _ => StepOutcome.ok (some "summary")⟩

/-- Oracle whose resolver returns an empty transcript. -/
def envEmptyTranscript : PageEnv :=
  ⟨fun _ => StepOutcome.ok (some ""), fun _ => StepOutcome.ok (some "summary")⟩

/-- Oracle on which every page succeeds with a fixed transcript and summary. -/
def envAlwaysOk : PageEnv :=
  ⟨fun _ => StepOutcome.ok (some "text"), fun _ => StepOutcome.ok (some "summary")⟩

/-- A cache holding one entry, used to exhibit the cache-hit behavior. -/
def cacheWithHello : String → Option String :=
  fun p => if p = cacheFilePath "BV1xx411c7mD" 1 then some "hello" else none

/-- The empty filesystem. -/
def emptyFs : Fs :=
  ⟨fun _ => none, [], []⟩

/-- A filesystem already holding the checkpoint file of page 1 titled `"a"`
under output directory `"result"` (with Char.isAlphanum as the alnum test). -/
def fsWithP001 : Fs :=
  ⟨fun p => if p = bvid_checkpointPath Char.isAlphanum "result" 1 "a" then some "done" else none,
   ["result"], []⟩

/-! ## Lemmas about the retry loop -/

/-- The loop makes at most as many attempts as iterations remain. -/
theorem runAttempts_attempts_le (env : PageEnv) (maxRetries : Nat) :
    ∀ remaining attempt, (runAttempts env maxRetries remaining attempt).attemptsMade ≤ remaining := by
  intro remaining
  induction remaining with
  | zero => intro attempt; simp [runAttempts]
  | succ n ih =>
    intro attempt
    have ihn := ih (attempt + 1)
    rcases h : env.resolve attempt with st | _ | _
    · by_cases hb : pyBlank st
      · simp [runAttempts, h, hb]
      · rcases hs : env.summar attempt with sm | _ | _
        · rcases sm with _ | s
          · simp [runAttempts, h, hb, hs]
          · by_cases he : s = "" <;> simp [runAttempts, h, hb, hs, he]
        · by_cases hm : attempt + 1 = maxRetries
          · simp [runAttempts, h, hb, hs, hm]
          · simp [runAttempts, h, hb, hs, hm]
            omega
        · simp [runAttempts, h, hb, hs]
    · by_cases hm : attempt + 1 = maxRetries
      · simp [runAttempts, h, hm]
      · simp [runAttempts, h, hm]
        omega
    · simp [runAttempts, h]

/-- With at least one iteration remaining, the loop makes at least one attempt. -/
theorem runAttempts_attempts_pos (env : PageEnv) (maxRetries : Nat) :
    ∀ remaining attempt, 0 < remaining →
      1 ≤ (runAttempts env maxRetries remaining attempt).attemptsMade := by
  intro remaining
  cases remaining with
  | zero => intro attempt h; omega
  | succ n =>
    intro attempt _
    rcases h : env.resolve attempt with st | _ | _
    · by_cases hb : pyBlank st
      · simp [runAttempts, h, hb]
      · rcases hs : env.summar attempt with sm | _ | _
        · rcases sm with _ | s
          · simp [runAttempts, h, hb, hs]
          · by_cases he : s = "" <;> simp [runAttempts, h, hb, hs, he]
        · by_cases hm : attempt + 1 = maxRetries
          · simp [runAttempts, h, hb, hs, hm]
          · simp [runAttempts, h, hb, hs, hm]
        · simp [runAttempts, h, hb, hs]
    · by_cases hm : attempt + 1 = maxRetries
      · simp [runAttempts, h, hm]
      · simp [runAttempts, h, hm]
    · simp [runAttempts, h]

/-- The only way the loop moves past an attempt is a network-class failure with
attempts remaining, so the sleeps are exactly `5 * 1, 5 * 2, …` offset by the
starting attempt index, one per non-final attempt. -/
theorem runAttempts_sleeps (env : PageEnv) (maxRetries : Nat) :
    ∀ remaining attempt, attempt + remaining = maxRetries →
      (runAttempts env maxRetries remaining attempt).sleeps =
        (List.range ((runAttempts env maxRetries remaining attempt).attemptsMade - 1)).map
          (fun i => 5 * (attempt + i + 1)) := by
  intro remaining
  induction remaining with
  | zero => intro attempt _; simp [runAttempts]
  | succ n ih =>
    intro attempt hsum
    rcases h : env.resolve attempt with st | _ | _
    · by_cases hb : pyBlank st
      · simp [runAttempts, h, hb]
      · rcases hs : env.summar attempt with sm | _ | _
        · rcases sm with _ | s
          · simp [runAttempts, h, hb, hs]
          · by_cases he : s = "" <;> simp [runAttempts, h, hb, hs, he]
        · by_cases hm : attempt + 1 = maxRetries
          · simp [runAttempts, h, hb, hs, hm]
          · have hpos : 1 ≤ (runAttempts env maxRetries n (attempt + 1)).attemptsMade :=
              runAttempts_attempts_pos env maxRetries n (attempt + 1) (by omega)
            have ihn := ih (attempt + 1) (by omega)
            rcases Nat.exists_eq_add_of_le hpos with ⟨k, hk⟩
            simp only [runAttempts, h, hb, hs, hm, ihn, hk, if_false, Bool.false_eq_true,
              ite_false, if_neg hm]
            simp only [show 1 + k + 1 - 1 = k + 1 from by omega,
              show 1 + k - 1 = k from by omega]
            rw [List.range_succ_eq_map, List.map_cons, List.map_map]
            congr 1
            apply List.map_congr_left
            intro i _
            simp only [Function.comp_apply]
            omega
        · simp [runAttempts, h, hb, hs]
    · by_cases hm : attempt + 1 = maxRetries
      · simp [runAttempts, h, hm]
      · have hpos : 1 ≤ (runAttempts env maxRetries n (attempt + 1)).attemptsMade :=
          runAttempts_attempts_pos env maxRetries n (attempt + 1) (by omega)
        have ihn := ih (attempt + 1) (by omega)
        rcases Nat.exists_eq_add_of_le hpos with ⟨k, hk⟩
        simp only [runAttempts, h, hm, ihn, hk, if_false, Bool.false_eq_true, ite_false,
          if_neg hm]
        simp only [show 1 + k + 1 - 1 = k + 1 from by omega,
          show 1 + k - 1 = k from by omega]
        rw [List.range_succ_eq_map, List.map_cons, List.map_map]
        congr 1
        apply List.map_congr_left
        intro i _
        simp only [Function.comp_apply]
        omega
    · simp [runAttempts, h]

/-! ## Claims C1, C3, C5: the Page Processor's retry loop -/

/-- C1: the Page Processor makes at most 3 attempts per page; the only way to
reach a further attempt is a network-class transient failure with attempts
remaining, each followed by a sleep of `5 * attempt_number` seconds (5s after
the 1st failed attempt, 10s after the 2nd); and when all three attempts fail
with network-class errors it logs the give-up error and returns normally with
no output file written, so the batch continues. -/
theorem C1_retry_backoff (env : PageEnv) :
    (process_page_trace env).attemptsMade ≤ 3 ∧
    (process_page_trace env).sleeps =
      (List.range ((process_page_trace env).attemptsMade - 1)).map (fun i => 5 * (i + 1)) ∧
    (env.resolve 0 = StepOutcome.raiseNet → env.resolve 1 = StepOutcome.raiseNet →
      env.resolve 2 = StepOutcome.raiseNet →
      (process_page_trace env).attemptsMade = 3 ∧
      (process_page_trace env).sleeps = [5, 10] ∧
      (process_page_trace env).gaveUp = true ∧
      (process_page_trace env).saved = none ∧
      ∀ (isalnum : Char → Bool) (pg : Page) (output_dir : String) (spn : Option Nat) (fs : Fs),
        (process_page isalnum env pg output_dir spn fs).2 = fs) := by
  refine ⟨runAttempts_attempts_le env 3 3 0, ?_, ?_⟩
  · have h2 := runAttempts_sleeps env 3 3 0 rfl
    exact h2.trans (List.map_congr_left (fun i _ => by omega))
  · intro h0 h1 h2
    have ht : process_page_trace env = ⟨3, [5, 10], 0, none, true, false, false, false⟩ := by
      simp [process_page_trace, runAttempts, h0, h1, h2]
    refine ⟨by rw [ht], by rw [ht], by rw [ht], by rw [ht], ?_⟩
    intro isalnum pg output_dir spn fs
    simp [process_page, ht]

/-- Witness for C1 at the oracle whose three attempts all raise a
network-class error. -/
theorem C1_retry_backoff_witness :
    (process_page_trace envAllNet).attemptsMade = 3 ∧
    (process_page_trace envAllNet).sleeps = [5, 10] ∧
    (process_page_trace envAllNet).gaveUp = true ∧
    (process_page_trace envAllNet).saved = none := by
  have h := (C1_retry_backoff envAllNet).2.2 rfl rfl rfl
  exact ⟨h.1, h.2.1, h.2.2.1, h.2.2.2.1⟩

/-- C3: when processing raises an exception that is not a network-class
transient error — from the resolver on the first attempt, or from the
summarizer after a non-blank transcript — the Page Processor makes exactly one
attempt, logs the exception, performs no sleeps, saves nothing, writes no
output file, and returns without raising. -/
theorem C3_fail_fast (env : PageEnv) :
    (env.resolve 0 = StepOutcome.raiseOther →
      (process_page_trace env).attemptsMade = 1 ∧
      (process_page_trace env).sleeps = [] ∧
      (process_page_trace env).saved = none ∧
      (process_page_trace env).unexpectedLogged = true ∧
      ∀ (isalnum : Char → Bool) (pg : Page) (output_dir : String) (spn : Option Nat) (fs : Fs),
        (process_page isalnum env pg output_dir spn fs).2 = fs) ∧
    (∀ st, env.resolve 0 = StepOutcome.ok st → pyBlank st = false →
      env.summar 0 = StepOutcome.raiseOther →
      (process_page_trace env).attemptsMade = 1 ∧
      (process_page_trace env).sleeps = [] ∧
      (process_page_trace env).saved = none ∧
      (process_page_trace env).unexpectedLogged = true ∧
      ∀ (isalnum : Char → Bool) (pg : Page) (output_dir : String) (spn : Option Nat) (fs : Fs),
        (process_page isalnum env pg output_dir spn fs).2 = fs) := by
  constructor
  · intro h0
    have ht : process_page_trace env = ⟨1, [], 0, none, false, false, true, false⟩ := by
      simp [process_page_trace, runAttempts, h0]
    refine ⟨by rw [ht], by rw [ht], by rw [ht], by rw [ht], ?_⟩
    intro isalnum pg output_dir spn fs
    simp [process_page, ht]
  · intro st h0 hb hs
    have ht : process_page_trace env = ⟨1, [], 1, none, false, false, true, false⟩ := by
      simp [process_page_trace, runAttempts, h0, hb, hs]
    refine ⟨by rw [ht], by rw [ht], by rw [ht], by rw [ht], ?_⟩
    intro isalnum pg output_dir spn fs
    simp [process_page, ht]

/-- Witness for C3 at the oracle whose first attempt raises a non-network
exception. -/
theorem C3_fail_fast_witness :
    (process_page_trace envOtherFirst).attemptsMade = 1 ∧
    (process_page_trace envOtherFirst).sleeps = [] ∧
    (process_page_trace envOtherFirst).saved = none ∧
    (process_page_trace envOtherFirst).unexpectedLogged = true := by
  have h := (C3_fail_fast envOtherFirst).1 rfl
  exact ⟨h.1, h.2.1, h.2.2.1, h.2.2.2.1⟩

/-- C5: a page whose resolved transcript is absent, empty or whitespace-only is
warned about and abandoned after exactly one attempt: the summarizer is never
invoked, no output file is produced, no sleep or retry happens, and neither the
give-up error nor the unexpected-exception error fires. -/
theorem C5_empty_transcript (env : PageEnv) (st : Option String)
    (h : env.resolve 0 = StepOutcome.ok st) (hb : pyBlank st = true) :
    (process_page_trace env).attemptsMade = 1 ∧
    (process_page_trace env).sleeps = [] ∧
    (process_page_trace env).summarizerCalls = 0 ∧
    (process_page_trace env).saved = none ∧
    (process_page_trace env).emptyWarned = true ∧
    (process_page_trace env).gaveUp = false ∧
    (process_page_trace env).unexpectedLogged = false ∧
    ∀ (isalnum : Char → Bool) (pg : Page) (output_dir : String) (spn : Option Nat) (fs : Fs),
      (process_page isalnum env pg output_dir spn fs).2 = fs := by
  have ht : process_page_trace env = ⟨1, [], 0, none, false, true, false, false⟩ := by
    simp [process_page_trace, runAttempts, h, hb]
  refine ⟨by rw [ht], by rw [ht], by rw [ht], by rw [ht], by rw [ht], by rw [ht], by rw [ht], ?_⟩
  intro isalnum pg output_dir spn fs
  simp [process_page, ht]

/-- Witness for C5 at the oracle whose resolver returns an empty string. -/
theorem C5_empty_transcript_witness :
    (process_page_trace envEmptyTranscript).attemptsMade = 1 ∧
    (process_page_trace envEmptyTranscript).summarizerCalls = 0 ∧
    (process_page_trace envEmptyTranscript).saved = none ∧
    (process_page_trace envEmptyTranscript).emptyWarned = true := by
  have h := C5_empty_transcript envEmptyTranscript (some "") rfl (by decide)
  exact ⟨h.1, h.2.2.1, h.2.2.2.1, h.2.2.2.2.1⟩

/-! ## Claims C4, C7: the Subtitle Resolver and the Transcript Cache -/

/-- Python truthiness of the `put` guard for a present string: equivalent to
the text being non-empty after stripping. -/
theorem pyTruthyTrim_some (s : String) :
    pyTruthyTrim (some s) = true ↔ pyStrip s ≠ "" := by
  simp only [pyTruthyTrim, Bool.and_eq_true, decide_eq_true_eq]
  constructor
  · exact fun h => h.2
  · intro h
    refine ⟨fun he => ?_, h⟩
    subst he
    exact h rfl

/-- C4: a cache hit short-circuits the Subtitle Resolver: the entry's content
is returned as-is with no content validation, no collaborator is invoked, and
the cache is left unchanged. -/
theorem C4_cache_hit (bvid : String) (page_number : Nat) (cache : String → Option String)
    (source : SubtitleSource) (t : String)
    (h : cache (cacheFilePath bvid page_number) = some t) :
    (get_subtitle bvid page_number cache source).subtitle_text = some t ∧
    (get_subtitle bvid page_number cache source).calls = [] ∧
    (get_subtitle bvid page_number cache source).cache = cache ∧
    (get_subtitle bvid page_number cache source).cacheWritten = false := by
  have h' : cache (pathJoin CACHE_DIR (bvid ++ "_" ++ toString page_number ++ ".txt")) = some t := h
  simp [get_subtitle, h']

/-- Witness for C4 at a concrete populated cache. -/
theorem C4_cache_hit_witness :
    (get_subtitle "BV1xx411c7mD" 1 cacheWithHello (SubtitleSource.generated "x")).subtitle_text
        = some "hello" ∧
    (get_subtitle "BV1xx411c7mD" 1 cacheWithHello (SubtitleSource.generated "x")).calls = [] := by
  have h := C4_cache_hit "BV1xx411c7mD" 1 cacheWithHello (SubtitleSource.generated "x") "hello"
    (by rfl)
  exact ⟨h.1, h.2.1⟩

/-- On a cache miss, `get_subtitle` resolves the source's text and writes a
cache entry exactly when the `put` guard holds. -/
theorem get_subtitle_miss (bvid : String) (page_number : Nat) (cache : String → Option String)
    (source : SubtitleSource)
    (h : cache (cacheFilePath bvid page_number) = none) :
    get_subtitle bvid page_number cache source =
      if pyTruthyTrim (some (subtitleSourceText source)) then
        ⟨some (subtitleSourceText source),
         fun p => if p = cacheFilePath bvid page_number
           then some (subtitleSourceText source) else cache p,
         missCalls source, true⟩
      else
        ⟨some (subtitleSourceText source), cache, missCalls source, false⟩ := by
  have h' : cache (pathJoin CACHE_DIR (bvid ++ "_" ++ toString page_number ++ ".txt")) = none := h
  rcases source with body | text
  · by_cases ht : pyTruthyTrim (some (String.intercalate "\n" body)) = true <;>
      simp [get_subtitle, h', subtitleSourceText, missCalls, cacheFilePath, ht]
  · by_cases ht : pyTruthyTrim (some text) = true <;>
      simp [get_subtitle, h', subtitleSourceText, missCalls, cacheFilePath, ht]

/-- C7: the Subtitle Resolver writes a cache entry iff the resolved text is
non-empty after trimming: a hit writes nothing; on a miss, the entry is written
under the computed key exactly when the stripped text is non-empty, no other
key changes, and every entry ever present under the key is non-blank. -/
theorem C7_cache_put_iff (bvid : String) (page_number : Nat)
    (cache : String → Option String) (source : SubtitleSource) :
    (∀ t, cache (cacheFilePath bvid page_number) = some t →
      (get_subtitle bvid page_number cache source).cache = cache ∧
      (get_subtitle bvid page_number cache source).cacheWritten = false) ∧
    (cache (cacheFilePath bvid page_number) = none →
      ((get_subtitle bvid page_number cache source).cacheWritten = true ↔
        pyStrip (subtitleSourceText source) ≠ "") ∧
      ((get_subtitle bvid page_number cache source).cacheWritten = true →
        (get_subtitle bvid page_number cache source).cache (cacheFilePath bvid page_number) =
          some (subtitleSourceText source)) ∧
      ((get_subtitle bvid page_number cache source).cacheWritten = false →
        (get_subtitle bvid page_number cache source).cache = cache) ∧
      (∀ p, p ≠ cacheFilePath bvid page_number →
        (get_subtitle bvid page_number cache source).cache p = cache p) ∧
      (∀ t, (get_subtitle bvid page_number cache source).cache
          (cacheFilePath bvid page_number) = some t → pyStrip t ≠ "")) := by
  constructor
  · intro t ht
    have h' : cache (pathJoin CACHE_DIR (bvid ++ "_" ++ toString page_number ++ ".txt"))
        = some t := ht
    simp [get_subtitle, h']
  · intro hnone
    have e := get_subtitle_miss bvid page_number cache source hnone
    by_cases ht : pyTruthyTrim (some (subtitleSourceText source)) = true
    · rw [e, if_pos ht]
      refine ⟨?_, ?_, ?_, ?_, ?_⟩
      · simpa using (pyTruthyTrim_some (subtitleSourceText source)).1 ht
      · intro _
        simp
      · intro hfalse
        simp at hfalse
      · intro p hp
        simp [if_neg hp]
      · intro t htw
        simp at htw
        rw [← htw]
        exact (pyTruthyTrim_some (subtitleSourceText source)).1 ht
    · rw [e, if_neg ht]
      have hblank : ¬ pyStrip (subtitleSourceText source) ≠ "" :=
        fun hc => ht ((pyTruthyTrim_some (subtitleSourceText source)).2 hc)
      refine ⟨?_, ?_, ?_, ?_, ?_⟩
      · simpa using hblank
      · intro htrue
        simp at htrue
      · intro _
        rfl
      · intro p _
        rfl
      · intro t htw
        simp [hnone] at htw

/-- Witness for C7 at an empty cache and a non-blank generated transcript. -/
theorem C7_cache_put_iff_witness :
    (get_subtitle "BV1w7" 2 (fun _ => none) (SubtitleSource.generated "hello")).cacheWritten
        = true ∧
    (get_subtitle "BV1w7" 2 (fun _ => none) (SubtitleSource.generated "hello")).cache
        (cacheFilePath "BV1w7" 2) = some "hello" := by
  have h := (C7_cache_put_iff "BV1w7" 2 (fun _ => none) (SubtitleSource.generated "hello")).2 rfl
  have hw := h.1.mpr (by decide)
  exact ⟨hw, h.2.1 hw⟩

/-! ## Claim C8: cache eviction -/

/-- The scan removes exactly the stale regular files whose stat and removal
both succeed, counts them, and counts one logged error per stat or removal
failure; it never aborts part-way. -/
theorem cleanup_scan_spec (cutoff : Int) (entries : List CacheFile) :
    cleanup_scan cutoff entries =
      (entries.filter (fun f => !evictedP cutoff f),
       entries.countP (evictedP cutoff),
       entries.countP (evictErrP cutoff)) := by
  induction entries with
  | nil => simp [cleanup_scan]
  | cons f rest ih =>
    cases hf : f.isFile <;> cases hs : f.statOk <;> cases hr : f.removeOk <;>
      by_cases hm : f.mtime < cutoff <;>
        simp [cleanup_scan, ih, evictedP, evictErrP, hf, hs, hr, hm, List.countP_cons,
          List.filter_cons]

/-- C8: with the cutoff `now - max_age_days` (in seconds), eviction removes
exactly the regular files older than the cutoff (when statting and removing
them succeeds) and retains every file at or after the cutoff; each per-file
stat/remove failure is logged and the scan continues over the remaining files
without raising; a missing cache directory is a no-op. -/
theorem C8_cache_eviction (now max_age_days : Int) (entries : List CacheFile) :
    (cleanup_cache true now max_age_days entries).1 =
      entries.filter (fun f => !evictedP (now - max_age_days * 24 * 60 * 60) f) ∧
    (cleanup_cache true now max_age_days entries).2.1 =
      entries.countP (evictedP (now - max_age_days * 24 * 60 * 60)) ∧
    (cleanup_cache true now max_age_days entries).2.2 =
      entries.countP (evictErrP (now - max_age_days * 24 * 60 * 60)) ∧
    cleanup_cache false now max_age_days entries = (entries, 0, 0) := by
  have h := cleanup_scan_spec (now - max_age_days * 24 * 60 * 60) entries
  exact ⟨by simp [cleanup_cache, h], by simp [cleanup_cache, h],
    by simp [cleanup_cache, h], by simp [cleanup_cache]⟩

/-! ## Claims C9, C10: the Output Writer and checkpoint-path agreement -/

/-- The source's sanitization expression agrees with the specification's
wording of it. -/
theorem save_safeFilename_eq_claim (isalnum : Char → Bool) (title : String) :
    save_safeFilename isalnum title = sanitize_per_claim isalnum title := by
  unfold save_safeFilename sanitize_per_claim
  have hf : title.data.filter (fun c => isalnum c || c = ' ' || c = '.' || c = '_' || c = '-')
      = title.data.filter
          (fun c => isalnum c || decide (c ∈ ([' ', '.', '_', '-'] : List Char))) := by
    apply List.filter_congr
    intro c _
    by_cases h1 : c = ' ' <;> by_cases h2 : c = '.' <;> by_cases h3 : c = '_' <;>
      by_cases h4 : c = '-' <;> simp [h1, h2, h3, h4, List.mem_cons]
  rw [hf]

/-- C9: `save` sanitizes the title by keeping exactly the alphanumeric
characters, spaces, dots, underscores and hyphens and stripping trailing
whitespace, writes `content` as the full body at
`{output_dir}/P{save_number:03d}_{sanitized}.md` (overwriting any existing
file at that path), ensures the output directory exists, and logs the write. -/
theorem C9_save (isalnum : Char → Bool) (save_number : Nat) (title content output_dir : String)
    (fs : Fs) :
    (save isalnum save_number title content output_dir fs).1 =
      pathJoin output_dir
        ("P" ++ formatP03 save_number ++ "_" ++ sanitize_per_claim isalnum title ++ ".md") ∧
    ((save isalnum save_number title content output_dir fs).2).files =
      (fun p => if p = (save isalnum save_number title content output_dir fs).1
        then some content else fs.files p) ∧
    output_dir ∈ ((save isalnum save_number title content output_dir fs).2).dirs ∧
    ((save isalnum save_number title content output_dir fs).2).writes =
      fs.writes ++ [(save isalnum save_number title content output_dir fs).1] := by
  refine ⟨?_, rfl, ?_, rfl⟩
  · simp [save, save_safeFilename_eq_claim, pathJoin]
  · by_cases h : output_dir ∈ fs.dirs <;> simp [save, h]

/-- The spec's sanitization example: forbidden characters are dropped and
trailing whitespace stripped. -/
theorem sanitize_example :
    save_safeFilename Char.isAlphanum "Ep:1 / Intro?" = "Ep1  Intro" := by decide

/-- C10: the checkpoint paths tested by `process_bvid` and `process_season`
are character-for-character the path `save` writes for the same save number
and title, so a successful write makes the skip predicate true afterwards. -/
theorem C10_path_agreement (isalnum : Char → Bool) (output_dir : String) (n : Nat)
    (title content : String) (fs : Fs) :
    bvid_checkpointPath isalnum output_dir n title
        = (save isalnum n title content output_dir fs).1 ∧
    season_checkpointPath isalnum output_dir n title
        = (save isalnum n title content output_dir fs).1 ∧
    ((save isalnum n title content output_dir fs).2).files
        (bvid_checkpointPath isalnum output_dir n title) = some content ∧
    ((save isalnum n title content output_dir fs).2).files
        (season_checkpointPath isalnum output_dir n title) = some content := by
  refine ⟨rfl, rfl, ?_, ?_⟩ <;> exact if_pos rfl

/-! ## Claim C6: season-mode numbering -/

/-- The inner page loop issues consecutive save numbers starting at the current
counter, one per page in page order, whether the page is skipped or processed,
and leaves the counter advanced by the number of pages. -/
theorem seasonPagesLoop_spec (isalnum : Char → Bool) (env : Page → PageEnv) (output_dir : String) :
    ∀ (pages : List Page) (counter : Nat) (fs : Fs),
      (seasonPagesLoop isalnum env output_dir pages counter fs).2.1.map Prod.fst =
        List.range' counter pages.length ∧
      (seasonPagesLoop isalnum env output_dir pages counter fs).2.1.map Prod.snd = pages ∧
      (seasonPagesLoop isalnum env output_dir pages counter fs).2.2 = counter + pages.length := by
  intro pages
  induction pages with
  | nil => intro counter fs; simp [seasonPagesLoop]
  | cons pg rest ih =>
    intro counter fs
    by_cases h : (fs.files (season_checkpointPath isalnum output_dir counter pg.part)).isSome = true
    · have ihr := ih (counter + 1) fs
      simp [seasonPagesLoop, h, ihr.1, ihr.2.1, ihr.2.2, List.range'_succ]
      omega
    · have ihr := ih (counter + 1)
        (process_page isalnum (env pg) pg output_dir (some counter) fs).2
      simp [seasonPagesLoop, h, ihr.1, ihr.2.1, ihr.2.2, List.range'_succ]
      omega

/-- The video loop threads the counter through successfully fetched videos and
leaves it untouched for videos whose page fetch failed. -/
theorem process_season_loop_spec (isalnum : Char → Bool) (envs : String → Page → PageEnv)
    (output_dir : String) :
    ∀ (videos : List (String × VideoFetch)) (counter : Nat) (fs : Fs),
      (process_season_loop isalnum envs output_dir videos counter fs).2.1.map Prod.fst =
        List.range' counter (seasonPageCount videos) ∧
      (process_season_loop isalnum envs output_dir videos counter fs).2.1.map Prod.snd =
        seasonPagesConcat videos ∧
      (process_season_loop isalnum envs output_dir videos counter fs).2.2 =
        counter + seasonPageCount videos := by
  intro videos
  induction videos with
  | nil => intro counter fs; simp [process_season_loop, seasonPageCount, seasonPagesConcat]
  | cons v rest ih =>
    rcases v with ⟨bvid, vf⟩
    rcases vf with _ | pages
    · intro counter fs
      simpa [process_season_loop, seasonPageCount, seasonPagesConcat] using ih counter fs
    · intro counter fs
      have hin := seasonPagesLoop_spec isalnum (envs bvid) output_dir pages counter fs
      have ihr := ih (counter + pages.length)
        (seasonPagesLoop isalnum (envs bvid) output_dir pages counter fs).1
      simp [process_season_loop, seasonPageCount, seasonPagesConcat, List.map_append,
        hin.1, hin.2.1, hin.2.2, ihr.1, ihr.2.1, ihr.2.2]
      constructor <;> omega

/-- C6: in season mode the global counter starts at 1 and is incremented
exactly once per enumerated page, skipped or processed, so the issued save
numbers are `1, 2, 3, …` in video-then-page order, independent of the pages'
own numbers; a video whose page-list fetch fails contributes nothing and does
not advance the counter, and the loop continues with the next video. -/
theorem C6_season_numbering (isalnum : Char → Bool) (envs : String → Page → PageEnv)
    (output_dir : String) (videos : List (String × VideoFetch)) (fs : Fs) :
    (process_season isalnum envs output_dir videos fs).2.1.map Prod.fst =
      List.range' 1 (seasonPageCount videos) ∧
    (process_season isalnum envs output_dir videos fs).2.1.map Prod.snd =
      seasonPagesConcat videos ∧
    (process_season isalnum envs output_dir videos fs).2.2 = 1 + seasonPageCount videos :=
  process_season_loop_spec isalnum envs output_dir videos 1 fs

/-- The spec's season-numbering example: videos with 2 and 3 pages (and one
failed fetch in between) issue save numbers 1..5 regardless of native page
numbers. -/
theorem season_numbering_example :
    (process_season Char.isAlphanum (fun _ _ => envAlwaysOk) "result"
      [("BVa", VideoFetch.fetched [⟨4, "w"⟩, ⟨5, "x"⟩]),
       ("BVb", VideoFetch.failed),
       ("BVc", VideoFetch.fetched [⟨1, "y"⟩, ⟨2, "z"⟩, ⟨3, "v"⟩])]
      emptyFs).2.1.map Prod.fst = [1, 2, 3, 4, 5] := by decide

/-! ## Claim C2: single-video idempotence -/

/-- The path `save` returns is the checkpoint path for the same number/title. -/
theorem save_path_eq (isalnum : Char → Bool) (n : Nat) (title content output_dir : String)
    (fs : Fs) :
    (save isalnum n title content output_dir fs).1 =
      bvid_checkpointPath isalnum output_dir n title := rfl

/-- `save` updates exactly the checkpoint path. -/
theorem save_files_eq (isalnum : Char → Bool) (n : Nat) (title content output_dir : String)
    (fs : Fs) :
    ((save isalnum n title content output_dir fs).2).files =
      fun p => if p = bvid_checkpointPath isalnum output_dir n title
        then some content else fs.files p := rfl

/-- `save` appends exactly the checkpoint path to the write log. -/
theorem save_writes_eq (isalnum : Char → Bool) (n : Nat) (title content output_dir : String)
    (fs : Fs) :
    ((save isalnum n title content output_dir fs).2).writes =
      fs.writes ++ [bvid_checkpointPath isalnum output_dir n title] := rfl

/-- A page run that saves nothing leaves the filesystem unchanged. -/
theorem process_page_fs_of_saved_none (isalnum : Char → Bool) (env : PageEnv) (pg : Page)
    (output_dir : String) (spn : Option Nat) (fs : Fs)
    (h : (process_page_trace env).saved = none) :
    (process_page isalnum env pg output_dir spn fs).2 = fs := by
  simp [process_page, h]

/-- A page run that saves performs exactly the `save` call at the page's own
number (single-video mode passes no explicit save number). -/
theorem process_page_fs_of_saved_some (isalnum : Char → Bool) (env : PageEnv) (pg : Page)
    (output_dir : String) (fs : Fs) (content : String)
    (h : (process_page_trace env).saved = some content) :
    (process_page isalnum env pg output_dir none fs).2 =
      (save isalnum pg.page pg.part content output_dir fs).2 := by
  simp [process_page, h]

/-- A page run dispatched only when its checkpoint is absent preserves every
existing file. -/
theorem process_page_files_mono (isalnum : Char → Bool) (env : PageEnv) (pg : Page)
    (output_dir : String) (fs : Fs)
    (hq : ¬ (fs.files (bvid_checkpointPath isalnum output_dir pg.page pg.part)).isSome = true) :
    ∀ path c, fs.files path = some c →
      ((process_page isalnum env pg output_dir none fs).2).files path = some c := by
  intro path c h
  rcases hs : (process_page_trace env).saved with _ | content
  · rw [process_page_fs_of_saved_none isalnum env pg output_dir none fs hs]
    exact h
  · rw [process_page_fs_of_saved_some isalnum env pg output_dir fs content hs,
      save_files_eq]
    have hne : path ≠ bvid_checkpointPath isalnum output_dir pg.page pg.part := by
      intro he
      subst he
      exact hq (by simp [h])
    simp only [if_neg hne]
    exact h

/-- A page whose checkpoint file exists is never dispatched by the loop. -/
theorem bvidLoop_skip (isalnum : Char → Bool) (envs : Page → PageEnv) (output_dir : String) :
    ∀ (L : List Page) (fs : Fs) (pg : Page),
      (fs.files (bvid_checkpointPath isalnum output_dir pg.page pg.part)).isSome = true →
      pg ∉ (bvidLoop isalnum envs output_dir L fs).2 := by
  intro L
  induction L with
  | nil => intro fs pg _; simp [bvidLoop]
  | cons q rest ih =>
    intro fs pg hpg
    by_cases hq : (fs.files (bvid_checkpointPath isalnum output_dir q.page q.part)).isSome = true
    · simp only [bvidLoop, hq, if_true]
      exact ih fs pg hpg
    · have hne : pg ≠ q := by
        intro he
        subst he
        exact hq hpg
      have hpres : (((process_page isalnum (envs q) q output_dir none fs).2).files
          (bvid_checkpointPath isalnum output_dir pg.page pg.part)).isSome = true := by
        rcases Option.isSome_iff_exists.1 hpg with ⟨c, hc⟩
        have hm := process_page_files_mono isalnum (envs q) q output_dir fs hq _ c hc
        simp [hm]
      simp only [bvidLoop, hq, if_false, Bool.false_eq_true, ite_false, List.mem_cons]
      push_neg
      exact ⟨hne, ih _ pg hpres⟩

/-- The loop never deletes or overwrites an existing file. -/
theorem bvidLoop_files_mono (isalnum : Char → Bool) (envs : Page → PageEnv)
    (output_dir : String) :
    ∀ (L : List Page) (fs : Fs) (path : String) (c : String), fs.files path = some c →
      ((bvidLoop isalnum envs output_dir L fs).1).files path = some c := by
  intro L
  induction L with
  | nil => intro fs path c h; simpa [bvidLoop] using h
  | cons q rest ih =>
    intro fs path c h
    by_cases hq : (fs.files (bvid_checkpointPath isalnum output_dir q.page q.part)).isSome = true
    · simpa only [bvidLoop, hq, if_true] using ih fs path c h
    · have h' := process_page_files_mono isalnum (envs q) q output_dir fs hq path c h
      simpa only [bvidLoop, hq, if_false, Bool.false_eq_true, ite_false] using ih _ path c h'

/-- Every write the loop performs targets a path that held no file when the
run began. -/
theorem bvidLoop_writes (isalnum : Char → Bool) (envs : Page → PageEnv) (output_dir : String) :
    ∀ (L : List Page) (fs : Fs),
      ∃ nw, ((bvidLoop isalnum envs output_dir L fs).1).writes = fs.writes ++ nw ∧
        ∀ path ∈ nw, fs.files path = none := by
  intro L
  induction L with
  | nil => intro fs; exact ⟨[], by simp [bvidLoop], by simp⟩
  | cons q rest ih =>
    intro fs
    by_cases hq : (fs.files (bvid_checkpointPath isalnum output_dir q.page q.part)).isSome = true
    · rcases ih fs with ⟨nw, h1, h2⟩
      exact ⟨nw, by simpa only [bvidLoop, hq, if_true] using h1, h2⟩
    · rcases hs : (process_page_trace (envs q)).saved with _ | content
      · have hfs := process_page_fs_of_saved_none isalnum (envs q) q output_dir none fs hs
        rcases ih fs with ⟨nw, h1, h2⟩
        refine ⟨nw, ?_, h2⟩
        simpa only [bvidLoop, hq, if_false, Bool.false_eq_true, ite_false, hfs] using h1
      · have hfs := process_page_fs_of_saved_some isalnum (envs q) q output_dir fs content hs
        rcases ih ((save isalnum q.page q.part content output_dir fs).2) with ⟨nw, h1, h2⟩
        refine ⟨bvid_checkpointPath isalnum output_dir q.page q.part :: nw, ?_, ?_⟩
        · have hlog : ((bvidLoop isalnum envs output_dir rest
              ((save isalnum q.page q.part content output_dir fs).2)).1).writes =
              fs.writes ++ (bvid_checkpointPath isalnum output_dir q.page q.part :: nw) := by
            rw [h1, save_writes_eq]
            simp
          simpa only [bvidLoop, hq, if_false, Bool.false_eq_true, ite_false, hfs] using hlog
        · intro path hp
          rcases List.mem_cons.1 hp with he | hm
          · subst he
            simpa using hq
          · have h2' := h2 path hm
            rw [save_files_eq] at h2'
            by_cases hpe : path = bvid_checkpointPath isalnum output_dir q.page q.part
            · subst hpe
              simpa using hq
            · simpa only [if_neg hpe] using h2'

/-- `pageDone` is preserved by running the loop. -/
theorem bvidLoop_preserves_done (isalnum : Char → Bool) (envs : Page → PageEnv)
    (output_dir : String) (L : List Page) (fs : Fs) (pg : Page)
    (hd : pageDone isalnum envs output_dir fs pg) :
    pageDone isalnum envs output_dir (bvidLoop isalnum envs output_dir L fs).1 pg := by
  rcases hd with hs | hn
  · left
    rcases Option.isSome_iff_exists.1 hs with ⟨c, hc⟩
    have hm := bvidLoop_files_mono isalnum envs output_dir L fs _ c hc
    simp [hm]
  · right
    exact hn

/-- After a run, every enumerated page is done: its checkpoint exists or its
processor saves nothing. -/
theorem bvidLoop_all_done (isalnum : Char → Bool) (envs : Page → PageEnv)
    (output_dir : String) :
    ∀ (L : List Page) (fs : Fs) (pg : Page), pg ∈ L →
      pageDone isalnum envs output_dir (bvidLoop isalnum envs output_dir L fs).1 pg := by
  intro L
  induction L with
  | nil => intro fs pg h; cases h
  | cons q rest ih =>
    intro fs pg hm
    rcases List.mem_cons.1 hm with he | hm'
    · subst he
      by_cases hq : (fs.files (bvid_checkpointPath isalnum output_dir pg.page pg.part)).isSome
          = true
      · have hd : pageDone isalnum envs output_dir fs pg := Or.inl hq
        simpa only [bvidLoop, hq, if_true] using
          bvidLoop_preserves_done isalnum envs output_dir rest fs pg hd
      · rcases hs : (process_page_trace (envs pg)).saved with _ | content
        · have hd : pageDone isalnum envs output_dir
              (process_page isalnum (envs pg) pg output_dir none fs).2 pg := Or.inr hs
          simpa only [bvidLoop, hq, if_false, Bool.false_eq_true, ite_false] using
            bvidLoop_preserves_done isalnum envs output_dir rest _ pg hd
        · have hfs := process_page_fs_of_saved_some isalnum (envs pg) pg output_dir fs content hs
          have hck : (((process_page isalnum (envs pg) pg output_dir none fs).2).files
              (bvid_checkpointPath isalnum output_dir pg.page pg.part)).isSome = true := by
            rw [hfs, save_files_eq]
            simp
          have hd : pageDone isalnum envs output_dir
              (process_page isalnum (envs pg) pg output_dir none fs).2 pg := Or.inl hck
          simpa only [bvidLoop, hq, if_false, Bool.false_eq_true, ite_false] using
            bvidLoop_preserves_done isalnum envs output_dir rest _ pg hd
    · by_cases hq : (fs.files (bvid_checkpointPath isalnum output_dir q.page q.part)).isSome
          = true
      · simpa only [bvidLoop, hq, if_true] using ih fs pg hm'
      · simpa only [bvidLoop, hq, if_false, Bool.false_eq_true, ite_false] using ih _ pg hm'

/-- Running the loop over pages that are all done changes nothing. -/
theorem bvidLoop_done_noop (isalnum : Char → Bool) (envs : Page → PageEnv)
    (output_dir : String) :
    ∀ (L : List Page) (fs : Fs), (∀ pg ∈ L, pageDone isalnum envs output_dir fs pg) →
      (bvidLoop isalnum envs output_dir L fs).1 = fs := by
  intro L
  induction L with
  | nil => intro fs _; simp [bvidLoop]
  | cons q rest ih =>
    intro fs hall
    have hq' := hall q (List.mem_cons_self q rest)
    by_cases hq : (fs.files (bvid_checkpointPath isalnum output_dir q.page q.part)).isSome = true
    · simpa only [bvidLoop, hq, if_true] using
        ih fs (fun pg h => hall pg (List.mem_cons_of_mem q h))
    · rcases hq' with hs | hn
      · exact absurd hs hq
      · have hfs := process_page_fs_of_saved_none isalnum (envs q) q output_dir none fs hn
        simpa only [bvidLoop, hq, if_false, Bool.false_eq_true, ite_false, hfs] using
          ih fs (fun pg h => hall pg (List.mem_cons_of_mem q h))

/-- C2: the single-video orchestrator skips (without processing) every page
whose checkpoint output file already exists, never deletes or overwrites an
existing output file, writes only to paths that held no file at the start of
the run, and is idempotent: a second run over the same inputs on the resulting
filesystem changes nothing (in particular it performs zero writes). -/
theorem C2_idempotent (isalnum : Char → Bool) (envs : Page → PageEnv) (all_pages : List Page)
    (start_page : Nat) (end_page : Option Nat) (output_dir : String) (fs : Fs) :
    (∀ pg : Page,
      (fs.files (bvid_checkpointPath isalnum output_dir pg.page pg.part)).isSome = true →
      pg ∉ (process_bvid isalnum envs all_pages start_page end_page output_dir fs).2) ∧
    (∀ path c, fs.files path = some c →
      ((process_bvid isalnum envs all_pages start_page end_page output_dir fs).1).files path
        = some c) ∧
    (∃ nw, ((process_bvid isalnum envs all_pages start_page end_page output_dir fs).1).writes
        = fs.writes ++ nw ∧ ∀ path ∈ nw, fs.files path = none) ∧
    (process_bvid isalnum envs all_pages start_page end_page output_dir
        (process_bvid isalnum envs all_pages start_page end_page output_dir fs).1).1 =
      (process_bvid isalnum envs all_pages start_page end_page output_dir fs).1 := by
  refine ⟨?_, ?_, ?_, ?_⟩
  · intro pg hck
    exact bvidLoop_skip isalnum envs output_dir _ fs pg hck
  · intro path c h
    exact bvidLoop_files_mono isalnum envs output_dir _ fs path c h
  · exact bvidLoop_writes isalnum envs output_dir _ fs
  · exact bvidLoop_done_noop isalnum envs output_dir _ _
      (fun pg h => bvidLoop_all_done isalnum envs output_dir _ fs pg h)

/-- Witness for C2: a page whose checkpoint file exists is skipped. -/
theorem C2_idempotent_witness :
    Page.mk 1 "a" ∉ (process_bvid Char.isAlphanum (fun _ => envAlwaysOk)
      [⟨1, "a"⟩] 1 none "result" fsWithP001).2 :=
  (C2_idempotent Char.isAlphanum (fun _ => envAlwaysOk) [⟨1, "a"⟩] 1 none "result"
    fsWithP001).1 ⟨1, "a"⟩ (by rfl)

end BiliSpec
